import Mathlib

/-!
Verification development for the connector layer of `nirvati/prisma-engines`:
the SQLite backend adapter (`src/connector/sqlite.rs`) and the capability
context of the SQL query connector
(`query-engine/connectors/sql-query-connector/src/context.rs`).

The embedding is a shallow one.  Backend effects (the r2d2 pool, rusqlite
statements, COMMIT/DETACH outcomes) are abstracted by an oracle `Backend`
that fixes the outcome of every fallible primitive, and each embedded
function additionally returns the ordered list of backend `Event`s it
issued, so that claims such as "no commit is issued" or "the query is never
dispatched" are directly expressible.
-/

namespace PrismaConnector

/-- The connector error taxonomy.  `databaseUrlIsInvalid` is the variant the
code constructs (`Error::DatabaseUrlIsInvalid`); the remaining variants stand
for the other members of the taxonomy (backend/rusqlite failures surface as
`queryError` or `transactionError`, pool failures as `connectionError`, and
`limitExceeded` is the proactive bind-limit condition). -/
inductive Error where
  | databaseUrlIsInvalid (url : String)
  | connectionError (msg : String)
  | queryError (msg : String)
  | transactionError (msg : String)
  | limitExceeded (count limit : Nat)
deriving DecidableEq, Repr

/-- `ParameterizedValue`: a typed positional bind value.  The `real` payload
(an `f64` in the code) is modelled as a rational; only the number and kind of
bind values matter for the properties proved here. -/
inductive ParameterizedValue where
  | null
  | integer (i : Int)
  | real (r : Rat)
  | text (s : String)
  | boolean (b : Bool)
deriving DecidableEq, Repr

/-- A result row: column name to typed scalar, in declared column order. -/
abbrev Row := List (String × ParameterizedValue)

/-- A result set: ordered rows. -/
abbrev ResultSet := List Row

/-- The r2d2 connection manager: `SqliteConnectionManager::memory()` or
`SqliteConnectionManager::file(path)`. -/
inductive Manager where
  | memory
  | file (path : String)
deriving DecidableEq, Repr

/-- The r2d2 pool as configured by `Sqlite::new`: its connection manager and
its `max_size` (the connection limit). -/
structure Pool where
  manager : Manager
  max_size : Nat
deriving DecidableEq, Repr

/-- Observable state of one pooled rusqlite connection: the names in its
`PRAGMA database_list` result, and whether `PRAGMA foreign_keys = ON` has
been issued. -/
structure Conn where
  attached : List String
  foreignKeys : Bool
deriving DecidableEq, Repr

/-- Backend actions issued by the connector, in order. -/
inductive Event where
  | poolCreated (m : Manager)
  | attachIssued (file db : String)
  | fkEnabled
  | detachIssued (db : String)
  | txBegan
  | commitIssued
  | committed
  | rolledBack
  | queryDispatched (sql : String)
deriving DecidableEq, Repr

/-- Oracle fixing the outcome of every fallible backend primitive: pool
construction, `pool.get()`, the `PRAGMA database_list` statement, the
`ATTACH DATABASE` statement, the `PRAGMA foreign_keys = ON` statement,
`conn.transaction()`, `tx.commit()`, the `DETACH DATABASE` statement, and
the backend's answer to a dispatched raw query.  `none` means the primitive
succeeds. -/
structure Backend where
  poolBuildErr : Option Error
  poolGet : Pool → Except Error Conn
  pragmaListErr : Option Error
  attachErr : Option Error
  pragmaFkErr : Option Error
  beginErr : Option Error
  commitErr : Option Error
  detachErr : Option Error
  rawQuery : String → List ParameterizedValue → Except Error ResultSet

/-- The filesystem view consulted by `TryFrom` (`path.is_dir()`) and
`does_file_exist` (`path.exists()`). -/
structure FileSystem where
  isDir : String → Bool
  pathExists : String → Bool

/-- Fuel-indexed helper for `str::trim_start_matches`, on character lists. -/
def trim_start_matches_aux : Nat → List Char → List Char → List Char
  | 0, s, _ => s
  | Nat.succ n, s, pat =>
    if 0 < pat.length ∧ pat.isPrefixOf s then
      trim_start_matches_aux n (s.drop pat.length) pat
    else s

/-- Rust `str::trim_start_matches`: repeatedly removes the pattern from the
front of the string. -/
def trim_start_matches (s pat : String) : String :=
  String.mk (trim_start_matches_aux s.data.length s.data pat.data)

/-- The `Sqlite` connector struct: a file path, an r2d2 pool, and the
ephemeral/test flag. -/
structure Sqlite where
  file_path : String
  pool : Pool
  test_mode : Bool
deriving DecidableEq, Repr

/-- `Sqlite::new(file_path, connection_limit, test_mode)`: builds the pool
with `max_size = connection_limit` over `SqliteConnectionManager::memory()`
(pool construction may fail), then stores the file path and the flag. -/
def Sqlite.new (b : Backend) (file_path : String) (connection_limit : Nat)
    (test_mode : Bool) : Except Error Sqlite × List Event :=
  match b.poolBuildErr with
  | some e => (Except.error e, [])
  | none =>
      (Except.ok { file_path := file_path
                   pool := { manager := Manager.memory, max_size := connection_limit }
                   test_mode := test_mode },
       [Event.poolCreated Manager.memory])

/-- `TryFrom<&str> for Sqlite`: strips the `file:` scheme, rejects a path
that is an existing directory with `Error::DatabaseUrlIsInvalid`, otherwise
calls `Sqlite::new(normalized, 10, false)`. -/
def Sqlite.try_from (fs : FileSystem) (b : Backend) (url : String) :
    Except Error Sqlite × List Event :=
  let normalized := trim_start_matches url "file:"
  if fs.isDir normalized then
    (Except.error (Error.databaseUrlIsInvalid url), [])
  else
    Sqlite.new b normalized 10 false

/-- `Sqlite::does_file_exist`: `PathBuf::from(&self.file_path).exists()`. -/
def Sqlite.does_file_exist (fs : FileSystem) (s : Sqlite) : Bool :=
  fs.pathExists s.file_path

/-- `Sqlite::attach_database`: reads `PRAGMA database_list`, and only when
`db_name` is absent from the attached names issues
`ATTACH DATABASE <self.file_path> AS <db_name>`; then always issues
`PRAGMA foreign_keys = ON`. -/
def attach_database (b : Backend) (self_file_path : String) (conn : Conn)
    (db_name : String) : Except Error Conn × List Event :=
  match b.pragmaListErr with
  | some e => (Except.error e, [])
  | none =>
      let databases : List String := conn.attached
      let step1 : Except Error Conn × List Event :=
        if ¬ databases.contains db_name then
          match b.attachErr with
          | some e => (Except.error e, [])
          | none =>
              (Except.ok { conn with attached := conn.attached ++ [db_name] },
               [Event.attachIssued self_file_path db_name])
        else (Except.ok conn, [])
      match step1 with
      | (Except.error e, evs) => (Except.error e, evs)
      | (Except.ok c, evs) =>
          match b.pragmaFkErr with
          | some e => (Except.error e, evs)
          | none => (Except.ok { c with foreignKeys := true }, evs ++ [Event.fkEnabled])

/-- `Sqlite::with_connection_internal`: `pool.get()?`, then
`attach_database(conn, db)?`, then runs the caller operation `f`; finally,
only in test mode, issues `DETACH DATABASE <db>` whose `?` propagates a
detach failure in place of `f`'s result. -/
def with_connection_internal {α : Type} (b : Backend) (s : Sqlite) (db : String)
    (f : Conn → Except Error α × Conn × List Event) : Except Error α × List Event :=
  match b.poolGet s.pool with
  | Except.error e => (Except.error e, [])
  | Except.ok conn0 =>
      match attach_database b s.file_path conn0 db with
      | (Except.error e, evs) => (Except.error e, evs)
      | (Except.ok conn1, evs) =>
          match f conn1 with
          | (result, _conn2, fevs) =>
              if s.test_mode then
                match b.detachErr with
                | some e => (Except.error e, evs ++ fevs ++ [Event.detachIssued db])
                | none => (result, evs ++ fevs ++ [Event.detachIssued db])
              else (result, evs ++ fevs)

/-- Lifts a plain caller operation (no tracked backend events of its own)
into the shape `with_connection_internal` expects. -/
def liftPlain {α : Type} (f : Conn → Except Error α × Conn) :
    Conn → Except Error α × Conn × List Event :=
  fun c => ((f c).1, (f c).2, [])

/-- `Database::with_connection for Sqlite`: delegates to
`with_connection_internal`. -/
def with_connection {α : Type} (b : Backend) (s : Sqlite) (db : String)
    (f : Conn → Except Error α × Conn) : Except Error α × List Event :=
  with_connection_internal b s db (liftPlain f)

/-- `Transactional::with_transaction for Sqlite`: inside
`with_connection_internal`, begins a transaction (`conn.transaction()?`),
runs the caller sequence `f`; if (and only if) `f` succeeded, issues
`tx.commit()?` whose failure replaces the success value.  On a failed
sequence the transaction handle is dropped at scope exit, which rolls the
transaction back (rusqlite's default drop behavior, errors ignored). -/
def with_transaction {α : Type} (b : Backend) (s : Sqlite) (db : String)
    (f : Conn → Except Error α × Conn) : Except Error α × List Event :=
  with_connection_internal b s db (fun conn =>
    match b.beginErr with
    | some e => (Except.error e, conn, [])
    | none =>
        match f conn with
        | (result, tconn) =>
            match result with
            | Except.ok a =>
                match b.commitErr with
                | some e => (Except.error e, conn, [Event.txBegan, Event.commitIssued])
                | none =>
                    (Except.ok a, tconn,
                     [Event.txBegan, Event.commitIssued, Event.committed])
            | Except.error e => (Except.error e, conn, [Event.txBegan, Event.rolledBack]))

/-- The opaque trace identifier (`telemetry::TraceParent`): an opaque causal
token, modelled as a wrapped string. -/
structure TraceParent where
  value : String
deriving DecidableEq, Repr

/-- `quaint::prelude::ConnectionInfo`, restricted to the capability surface
the Capability Context consumes: `max_insert_rows()` (an `Option<usize>`,
`None` meaning unlimited), `max_bind_values()` (a plain `usize`), and
`schema_name()`. -/
structure ConnectionInfo where
  max_insert_rows : Option Nat
  max_bind_values : Nat
  schema_name : String
deriving DecidableEq, Repr

/-- The Capability Context (`sql-query-connector/src/context.rs`): borrows a
`ConnectionInfo`, carries the optional trace identifier, and holds the two
limits computed at construction (`None` = unlimited). -/
structure Context where
  connection_info : ConnectionInfo
  traceparent : Option TraceParent
  max_insert_rows : Option Nat
  max_bind_values : Option Nat
deriving DecidableEq, Repr

/-- `Context::new(connection_info, traceparent)`: queries the descriptor for
both limits once and stores them; `max_bind_values` is wrapped in `Some`
because the descriptor reports it as a plain number. -/
def Context.new (connection_info : ConnectionInfo) (traceparent : Option TraceParent) :
    Context :=
  { connection_info := connection_info
    traceparent := traceparent
    max_insert_rows := connection_info.max_insert_rows
    max_bind_values := some connection_info.max_bind_values }

/-- `Context::schema_name`: pure accessor to the descriptor's schema name. -/
def Context.schema_name (c : Context) : String :=
  c.connection_info.schema_name

/-- Modelled from the spec: the body of `ConnectionLike::query_raw` lives in
the `connection_like` module, which `sqlite.rs` declares but whose source is
not under `src/`.  Per the spec, the positional bind-value count is checked
against the Capability Context's bind-value limit before dispatch: exceeding
the limit fails locally with `LimitExceeded` and the query is never
dispatched to the backend; otherwise the query is dispatched. -/
def query_raw (ctx : Context) (b : Backend) (sql : String)
    (params : List ParameterizedValue) : Except Error ResultSet × List Event :=
  match ctx.max_bind_values with
  | some limit =>
      if limit < params.length then
        (Except.error (Error.limitExceeded params.length limit), [])
      else (b.rawQuery sql params, [Event.queryDispatched sql])
  | none => (b.rawQuery sql params, [Event.queryDispatched sql])

/-- `Database::query_on_raw_connection for Sqlite`: runs `query_raw` on a
checked-out connection via `with_connection`. -/
def query_on_raw_connection (ctx : Context) (b : Backend) (s : Sqlite) (db : String)
    (sql : String) (params : List ParameterizedValue) :
    Except Error ResultSet × List Event :=
  with_connection_internal b s db (fun conn =>
    match query_raw ctx b sql params with
    | (r, evs) => (r, conn, evs))

/-! ### Concrete fixtures used by witnesses and counterexamples -/

/-- A fresh in-memory connection: only `main` attached, foreign keys off. -/
def connMain : Conn := { attached := ["main"], foreignKeys := false }

/-- A backend oracle on which every primitive succeeds. -/
def okB : Backend :=
  { poolBuildErr := none
    poolGet := fun _ => Except.ok connMain
    pragmaListErr := none
    attachErr := none
    pragmaFkErr := none
    beginErr := none
    commitErr := none
    detachErr := none
    rawQuery := fun _ _ => Except.ok [] }

/-- A backend on which only the `DETACH DATABASE` statement fails. -/
def detachFailB : Backend :=
  { okB with detachErr := some (Error.queryError "DETACH failed: database is locked") }

/-- A backend on which only `tx.commit()` fails. -/
def commitFailB : Backend :=
  { okB with commitErr := some (Error.transactionError "COMMIT failed: database is locked") }

/-- A connector in ephemeral/test configuration. -/
def sTest : Sqlite :=
  { file_path := "db/test.db"
    pool := { manager := Manager.memory, max_size := 1 }
    test_mode := true }

/-- A connector in standard configuration. -/
def sStd : Sqlite :=
  { file_path := "db/test.db"
    pool := { manager := Manager.memory, max_size := 10 }
    test_mode := false }

/-- A filesystem on which every path is an existing directory. -/
def allDirFS : FileSystem := { isDir := fun _ => true, pathExists := fun _ => true }

/-- A filesystem on which no path is a directory and no path exists. -/
def noDirFS : FileSystem := { isDir := fun _ => false, pathExists := fun _ => false }

/-! ### Helper lemmas -/
/-- Inversion of a successful `attach_database` run: the two PRAGMAs must
have succeeded, foreign keys end up enabled, and either the name was already
attached (no ATTACH issued) or it was absent and exactly one ATTACH of the
stored file path was issued. -/
lemma attach_ok_inv {b : Backend} {fp : String} {conn : Conn} {db : String}
    {c : Conn} {evs : List Event}
    (h : attach_database b fp conn db = (Except.ok c, evs)) :
    b.pragmaListErr = none ∧ b.pragmaFkErr = none ∧ c.foreignKeys = true ∧
    ((conn.attached.contains db = true ∧ c = { conn with foreignKeys := true } ∧
        evs = [Event.fkEnabled]) ∨
     (conn.attached.contains db = false ∧ b.attachErr = none ∧
        c = { attached := conn.attached ++ [db], foreignKeys := true } ∧
        evs = [Event.attachIssued fp db, Event.fkEnabled])) := by
  unfold attach_database at h
  cases hpl : b.pragmaListErr with
  | some e => rw [hpl] at h; simp at h
  | none =>
      rw [hpl] at h
      by_cases hc : conn.attached.contains db = true
      · have hm : db ∈ conn.attached := by simpa using hc
        cases hfk : b.pragmaFkErr with
        | some e => simp [hm, hfk] at h
        | none =>
            simp [hm, hfk] at h
            exact ⟨rfl, rfl, by rw [← h.1], Or.inl ⟨hc, h.1.symm, h.2.symm⟩⟩
      · have hc2 : conn.attached.contains db = false := by
          simpa using hc
        have hm : db ∉ conn.attached := by simpa using hc
        cases hat : b.attachErr with
        | some e => simp [hm, hat] at h
        | none =>
            cases hfk : b.pragmaFkErr with
            | some e => simp [hm, hat, hfk] at h
            | none =>
                simp [hm, hat, hfk] at h
                exact ⟨rfl, rfl, by rw [← h.1], Or.inr ⟨hc2, rfl, h.1.symm, h.2.symm⟩⟩

/-- When the name is already attached and both PRAGMAs succeed,
`attach_database` only re-enables foreign keys. -/
lemma attach_present {b : Backend} {fp : String} {conn : Conn} {db : String}
    (hc : conn.attached.contains db = true)
    (hpl : b.pragmaListErr = none) (hfk : b.pragmaFkErr = none) :
    attach_database b fp conn db =
      (Except.ok { conn with foreignKeys := true }, [Event.fkEnabled]) := by
  have hm : db ∈ conn.attached := by simpa using hc
  unfold attach_database
  rw [hpl]
  simp [hm, hfk]

/-- When the name is absent and every primitive succeeds, `attach_database`
issues exactly one ATTACH of the stored file path and enables foreign
keys. -/
lemma attach_absent {b : Backend} {fp : String} {conn : Conn} {db : String}
    (hc : conn.attached.contains db = false)
    (hpl : b.pragmaListErr = none) (hat : b.attachErr = none)
    (hfk : b.pragmaFkErr = none) :
    attach_database b fp conn db =
      (Except.ok { attached := conn.attached ++ [db], foreignKeys := true },
       [Event.attachIssued fp db, Event.fkEnabled]) := by
  have hm : db ∉ conn.attached := by simpa using hc
  unfold attach_database
  rw [hpl]
  simp [hm, hat, hfk]

/-- Every event `attach_database` can issue is an ATTACH of the stored file
path or the foreign-keys PRAGMA; in particular it never commits, rolls back
or dispatches a query. -/
lemma attach_events {b : Backend} {fp : String} {conn : Conn} {db : String}
    {ev : Event} (h : ev ∈ (attach_database b fp conn db).2) :
    ev = Event.attachIssued fp db ∨ ev = Event.fkEnabled := by
  unfold attach_database at h
  cases hpl : b.pragmaListErr with
  | some e => rw [hpl] at h; simp at h
  | none =>
      rw [hpl] at h
      by_cases hm : db ∈ conn.attached
      · cases hfk : b.pragmaFkErr with
        | some e => simp [hm, hfk] at h
        | none => simp [hm, hfk] at h; simp [h]
      · cases hat : b.attachErr with
        | some e => simp [hm, hat] at h
        | none =>
            cases hfk : b.pragmaFkErr with
            | some e => simp [hm, hat, hfk] at h; simp [h]
            | none =>
                simp [hm, hat, hfk] at h
                rcases h with h | h <;> simp [h]

/-- Unfolds one run of `with_connection_internal` once checkout and attach
have succeeded. -/
lemma wci_run {α : Type} {b : Backend} {s : Sqlite} {db : String}
    {conn0 conn1 : Conn} {evs0 : List Event}
    (f : Conn → Except Error α × Conn × List Event)
    (hget : b.poolGet s.pool = Except.ok conn0)
    (hattach : attach_database b s.file_path conn0 db = (Except.ok conn1, evs0)) :
    with_connection_internal b s db f =
      if s.test_mode then
        match b.detachErr with
        | some e => (Except.error e, evs0 ++ (f conn1).2.2 ++ [Event.detachIssued db])
        | none => ((f conn1).1, evs0 ++ (f conn1).2.2 ++ [Event.detachIssued db])
      else ((f conn1).1, evs0 ++ (f conn1).2.2) := by
  unfold with_connection_internal
  rw [hget]
  simp only
  rw [hattach]

deriving instance DecidableEq for Except

/-- A raw query whose bind-value count exceeds the context's limit fails with
`LimitExceeded` and issues no backend event at all. -/
lemma query_raw_limit {ctx : Context} {b : Backend} {sql : String}
    {params : List ParameterizedValue} {limit : Nat}
    (hm : ctx.max_bind_values = some limit) (hlen : limit < params.length) :
    query_raw ctx b sql params =
      (Except.error (Error.limitExceeded params.length limit), []) := by
  unfold query_raw
  rw [hm]
  simp [hlen]

/-! ### Claims -/

/-- C7: `Context::new(descriptor, trace_id)` computes both limits by querying
the descriptor, once, at construction; unlimited is the explicit absent value
`none`, never a numeric sentinel (the insert-row limit is stored exactly as
the descriptor reports it, `none` iff the descriptor says unlimited; the
bind-value limit is the descriptor's number wrapped in `some`, hence never
`none` and never a sentinel); the whole context is fully determined at
construction, and `schema_name()` is a pure accessor returning the
descriptor's schema name. -/
theorem C7_context_new (ci : ConnectionInfo) (tp : Option TraceParent) :
    (Context.new ci tp).max_insert_rows = ci.max_insert_rows ∧
    (Context.new ci tp).max_bind_values = some ci.max_bind_values ∧
    ((Context.new ci tp).max_insert_rows = none ↔ ci.max_insert_rows = none) ∧
    (Context.new ci tp).max_bind_values ≠ none ∧
    (Context.new ci tp).schema_name = ci.schema_name ∧
    Context.new ci tp =
      { connection_info := ci, traceparent := tp,
        max_insert_rows := ci.max_insert_rows,
        max_bind_values := some ci.max_bind_values } :=
  ⟨rfl, rfl, Iff.rfl, by simp [Context.new], rfl, rfl⟩

/-- C8: the trace identifier is purely observational: contexts built by
`Context::new` from the same descriptor but any two trace-identifier values
(including absent) agree on `schema_name()`, `max_insert_rows` and
`max_bind_values`. -/
theorem C8_traceparent_noninterference (ci : ConnectionInfo)
    (tp1 tp2 : Option TraceParent) :
    (Context.new ci tp1).schema_name = (Context.new ci tp2).schema_name ∧
    (Context.new ci tp1).max_insert_rows = (Context.new ci tp2).max_insert_rows ∧
    (Context.new ci tp1).max_bind_values = (Context.new ci tp2).max_bind_values :=
  ⟨rfl, rfl, rfl⟩

/-- C4: `attach_database` is idempotent: after any successful run the name is
attached, foreign keys are enabled, an ATTACH was issued iff the name was
absent, the name occurs exactly once when it was absent (and its count is
unchanged when present), and running `attach_database` again on the resulting
connection succeeds, issues no ATTACH, and leaves the connection unchanged —
in particular the second checkout produces no duplicate-attachment error. -/
theorem C4_attach_database_idempotent {b : Backend} {fp : String}
    {conn conn1 : Conn} {db : String} {evs : List Event}
    (h : attach_database b fp conn db = (Except.ok conn1, evs)) :
    db ∈ conn1.attached ∧
    conn1.foreignKeys = true ∧
    (Event.attachIssued fp db ∈ evs ↔ db ∉ conn.attached) ∧
    conn1.attached.count db =
      (if db ∈ conn.attached then conn.attached.count db else 1) ∧
    attach_database b fp conn1 db = (Except.ok conn1, [Event.fkEnabled]) := by
  obtain ⟨hpl, hfk, hcfk, hcase⟩ := attach_ok_inv h
  rcases hcase with ⟨hc, hc1, hevs⟩ | ⟨hc, hat, hc1, hevs⟩
  · have hm : db ∈ conn.attached := by simpa using hc
    subst hc1
    subst hevs
    refine ⟨hm, rfl, by simp [hm], by simp [hm], ?_⟩
    have hcont : (({ conn with foreignKeys := true } : Conn).attached.contains db) = true := by
      simpa using hm
    rw [attach_present hcont hpl hfk]
  · have hm : db ∉ conn.attached := by simpa using hc
    subst hc1
    subst hevs
    refine ⟨by simp, rfl, by simp [hm], ?_, ?_⟩
    · simp [hm, List.count_append, List.count_eq_zero.mpr hm]
    · have hcont : (({ attached := conn.attached ++ [db], foreignKeys := true } : Conn).attached.contains db) = true := by
        simp
      rw [attach_present hcont hpl hfk]

/-- The connection state after attaching `test` to a fresh connection. -/
def c4conn : Conn := { attached := ["main", "test"], foreignKeys := true }

/-- Witness for C4 at a concrete run: a fresh connection, the schema `test`,
and a backend on which every primitive succeeds. -/
theorem C4_witness :
    "test" ∈ c4conn.attached ∧
    c4conn.foreignKeys = true ∧
    (Event.attachIssued "db/test.db" "test" ∈
        [Event.attachIssued "db/test.db" "test", Event.fkEnabled] ↔
      "test" ∉ connMain.attached) ∧
    c4conn.attached.count "test" =
      (if "test" ∈ connMain.attached then connMain.attached.count "test" else 1) ∧
    attach_database okB "db/test.db" c4conn "test" =
      (Except.ok c4conn, [Event.fkEnabled]) :=
  C4_attach_database_idempotent
    (show attach_database okB "db/test.db" connMain "test" =
        (Except.ok c4conn, [Event.attachIssued "db/test.db" "test", Event.fkEnabled])
      from rfl)

/-- C5: a connection string whose path (after stripping the `file:` scheme)
is an existing directory fails construction with
`Error::DatabaseUrlIsInvalid` carrying the original url, and no connection
pool is ever created. -/
theorem C5_try_from_dir_rejected {fs : FileSystem} {b : Backend} {url : String}
    (hdir : fs.isDir (trim_start_matches url "file:") = true) :
    Sqlite.try_from fs b url =
      (Except.error (Error.databaseUrlIsInvalid url), []) ∧
    (∀ m : Manager, Event.poolCreated m ∉ (Sqlite.try_from fs b url).2) := by
  have h : Sqlite.try_from fs b url =
      (Except.error (Error.databaseUrlIsInvalid url), []) := by
    unfold Sqlite.try_from
    simp [hdir]
  exact ⟨h, by rw [h]; simp⟩

/-- Witness for C5 on a filesystem where every path is a directory. -/
theorem C5_witness :
    (Sqlite.try_from allDirFS okB "file:some/dir" =
      (Except.error (Error.databaseUrlIsInvalid "file:some/dir"), [])) ∧
    (∀ m : Manager,
      Event.poolCreated m ∉ (Sqlite.try_from allDirFS okB "file:some/dir").2) :=
  C5_try_from_dir_rejected rfl

/-- C9: every connector successfully built by `TryFrom<&str>` has the fixed
connection limit 10 and `test_mode = false`, regardless of the url. -/
theorem C9_try_from_fixed_config {fs : FileSystem} {b : Backend} {url : String}
    {s : Sqlite} {evs : List Event}
    (h : Sqlite.try_from fs b url = (Except.ok s, evs)) :
    s.test_mode = false ∧ s.pool.max_size = 10 := by
  unfold Sqlite.try_from at h
  by_cases hd : fs.isDir (trim_start_matches url "file:") = true
  · simp [hd] at h
  · simp only [Bool.not_eq_true] at hd
    simp only [hd, Bool.false_eq_true, if_false] at h
    unfold Sqlite.new at h
    cases hb : b.poolBuildErr with
    | some e => rw [hb] at h; simp at h
    | none =>
        rw [hb] at h
        simp only [Prod.mk.injEq, Except.ok.injEq] at h
        rw [← h.1]
        exact ⟨rfl, rfl⟩

/-- Witness for C9: the standard-configuration connector built from
`file:db/test.db`. -/
theorem C9_witness : sStd.test_mode = false ∧ sStd.pool.max_size = 10 :=
  C9_try_from_fixed_config
    (show Sqlite.try_from noDirFS okB "file:db/test.db" =
        (Except.ok sStd, [Event.poolCreated Manager.memory]) from rfl)

/-- C10: `Sqlite::new` always builds the pool from the in-memory connection
manager, never from the given file path: the pool of a successfully built
connector is the memory-managed pool, it is identical for any other file
path, and the stored file path is consulted only as the ATTACH target inside
`attach_database` and by `does_file_exist`. -/
theorem C10_memory_pool {b : Backend} {fp : String} {n : Nat} {tm : Bool}
    {s : Sqlite} {evs : List Event}
    (h : Sqlite.new b fp n tm = (Except.ok s, evs)) (fp2 : String) :
    s.pool.manager = Manager.memory ∧
    s.file_path = fp ∧
    evs = [Event.poolCreated Manager.memory] ∧
    (Sqlite.new b fp2 n tm).1 = Except.ok { s with file_path := fp2 } ∧
    (∀ fs : FileSystem, Sqlite.does_file_exist fs s = fs.pathExists fp) ∧
    (∀ (conn : Conn) (db : String) (ev : Event),
        ev ∈ (attach_database b s.file_path conn db).2 →
        ev = Event.attachIssued fp db ∨ ev = Event.fkEnabled) := by
  unfold Sqlite.new at h
  cases hb : b.poolBuildErr with
  | some e => rw [hb] at h; simp at h
  | none =>
      rw [hb] at h
      simp only [Prod.mk.injEq, Except.ok.injEq] at h
      obtain ⟨h1, h2⟩ := h
      subst h1
      refine ⟨rfl, rfl, h2.symm, ?_, fun fs => rfl, ?_⟩
      · unfold Sqlite.new
        rw [hb]
      · intro conn db ev hev
        exact attach_events hev

/-- Witness for C10 at a concrete construction of the test-mode
connector. -/
theorem C10_witness :
    sTest.pool.manager = Manager.memory ∧
    sTest.file_path = "db/test.db" ∧
    [Event.poolCreated Manager.memory] = [Event.poolCreated Manager.memory] ∧
    (Sqlite.new okB "other.db" 1 true).1 =
      Except.ok { sTest with file_path := "other.db" } ∧
    (∀ fs : FileSystem,
      Sqlite.does_file_exist fs sTest = fs.pathExists "db/test.db") ∧
    (∀ (conn : Conn) (db : String) (ev : Event),
        ev ∈ (attach_database okB sTest.file_path conn db).2 →
        ev = Event.attachIssued "db/test.db" db ∨ ev = Event.fkEnabled) :=
  C10_memory_pool
    (show Sqlite.new okB "db/test.db" 1 true =
        (Except.ok sTest, [Event.poolCreated Manager.memory]) from rfl)
    "other.db"

/-- C1 (amended): when the sequence run under `with_transaction` returns an
error, no commit is issued, the transaction is rolled back by the handle's
scope-exit mechanism, and the caller observes the sequence's original error
— never a commit or rollback error — unless the test-mode scope-exit DETACH
itself fails, in which case the detach error replaces it (in standard
configuration the caller always observes exactly the original error). -/
theorem C1_with_transaction_error_path {α : Type} {b : Backend} {s : Sqlite}
    {db : String} {conn0 conn1 : Conn} {evs0 : List Event} {e : Error}
    (f : Conn → Except Error α × Conn)
    (hget : b.poolGet s.pool = Except.ok conn0)
    (hattach : attach_database b s.file_path conn0 db = (Except.ok conn1, evs0))
    (hbegin : b.beginErr = none)
    (hf : (f conn1).1 = Except.error e) :
    Event.commitIssued ∉ (with_transaction b s db f).2 ∧
    Event.committed ∉ (with_transaction b s db f).2 ∧
    Event.rolledBack ∈ (with_transaction b s db f).2 ∧
    (with_transaction b s db f).1 =
      (match s.test_mode, b.detachErr with
       | true, some d => Except.error d
       | true, none => Except.error e
       | false, _ => Except.error e) := by
  have hevs0 : ∀ ev ∈ evs0,
      ev = Event.attachIssued s.file_path db ∨ ev = Event.fkEnabled := by
    intro ev hev
    exact attach_events (by rw [hattach]; exact hev)
  have hnc : Event.commitIssued ∉ evs0 := by
    intro hmem
    rcases hevs0 _ hmem with h | h <;> simp at h
  have hncm : Event.committed ∉ evs0 := by
    intro hmem
    rcases hevs0 _ hmem with h | h <;> simp at h
  unfold with_transaction
  rw [wci_run _ hget hattach]
  rcases hfc : f conn1 with ⟨r, tc⟩
  have hr : r = Except.error e := by rw [hfc] at hf; exact hf
  subst hr
  simp only [hbegin, hfc]
  by_cases ht : s.test_mode = true
  · cases hd : b.detachErr with
    | some d =>
        simp only [ht, hd, if_true]
        exact ⟨by simp [hnc], by simp [hncm], by simp, by trivial⟩
    | none =>
        simp only [ht, hd, if_true]
        exact ⟨by simp [hnc], by simp [hncm], by simp, by trivial⟩
  · simp only [Bool.not_eq_true] at ht
    simp only [ht, Bool.false_eq_true, if_false]
    exact ⟨by simp [hnc], by simp [hncm], by simp, by trivial⟩

/-- A caller sequence that always fails with the error `boom`. -/
def c1f : Conn → Except Error Nat × Conn :=
  fun c => (Except.error (Error.queryError "boom"), c)

/-- Witness for C1 in standard configuration: the caller observes exactly
the sequence's original error, no commit is issued, and the transaction is
rolled back. -/
theorem C1_witness :
    Event.commitIssued ∉ (with_transaction okB sStd "test" c1f).2 ∧
    Event.committed ∉ (with_transaction okB sStd "test" c1f).2 ∧
    Event.rolledBack ∈ (with_transaction okB sStd "test" c1f).2 ∧
    (with_transaction okB sStd "test" c1f).1 =
      Except.error (Error.queryError "boom") := by
  have h := @C1_with_transaction_error_path Nat okB sStd "test" connMain c4conn
      [Event.attachIssued "db/test.db" "test", Event.fkEnabled]
      (Error.queryError "boom") c1f rfl rfl rfl rfl
  exact ⟨h.1, h.2.1, h.2.2.1, h.2.2.2⟩

/-- Counterexample to C1 as literally stated: in test configuration with a
failing scope-exit DETACH, the sequence's error `boom` is replaced by the
detach error, so the value returned to the caller is not the sequence's
original error. -/
theorem C1_counterexample :
    (∀ c : Conn, (c1f c).1 = Except.error (Error.queryError "boom")) ∧
    (with_transaction detachFailB sTest "test" c1f).1 =
      Except.error (Error.queryError "DETACH failed: database is locked") ∧
    (with_transaction detachFailB sTest "test" c1f).1 ≠
      Except.error (Error.queryError "boom") := by
  refine ⟨fun c => rfl, rfl, ?_⟩
  have h2 : (with_transaction detachFailB sTest "test" c1f).1 =
      Except.error (Error.queryError "DETACH failed: database is locked") := rfl
  rw [h2]
  decide

/-- C2 (amended): when the sequence completes without error, the coordinator
issues a commit; when the commit succeeds the transaction is committed; the
caller observes the success value exactly when the commit succeeds and no
test-mode detach failure intervenes, and otherwise observes the intervening
commit or detach error. -/
theorem C2_with_transaction_success_path {α : Type} {b : Backend} {s : Sqlite}
    {db : String} {conn0 conn1 : Conn} {evs0 : List Event} {a : α}
    (f : Conn → Except Error α × Conn)
    (hget : b.poolGet s.pool = Except.ok conn0)
    (hattach : attach_database b s.file_path conn0 db = (Except.ok conn1, evs0))
    (hbegin : b.beginErr = none)
    (hf : (f conn1).1 = Except.ok a) :
    Event.commitIssued ∈ (with_transaction b s db f).2 ∧
    (b.commitErr = none → Event.committed ∈ (with_transaction b s db f).2) ∧
    (with_transaction b s db f).1 =
      (match s.test_mode, b.detachErr, b.commitErr with
       | true, some d, _ => Except.error d
       | true, none, some ce => Except.error ce
       | true, none, none => Except.ok a
       | false, _, some ce => Except.error ce
       | false, _, none => Except.ok a) := by
  unfold with_transaction
  rw [wci_run _ hget hattach]
  rcases hfc : f conn1 with ⟨r, tc⟩
  have hr : r = Except.ok a := by rw [hfc] at hf; exact hf
  subst hr
  simp only [hbegin, hfc]
  cases hce : b.commitErr with
  | some ce =>
      by_cases ht : s.test_mode = true
      · cases hd : b.detachErr with
        | some d => simp only [ht, hd, if_true]; exact ⟨by simp, by simp, by trivial⟩
        | none => simp only [ht, hd, if_true]; exact ⟨by simp, by simp, by trivial⟩
      · simp only [Bool.not_eq_true] at ht
        simp only [ht, Bool.false_eq_true, if_false]
        exact ⟨by simp, by simp, by trivial⟩
  | none =>
      by_cases ht : s.test_mode = true
      · cases hd : b.detachErr with
        | some d => simp only [ht, hd, if_true]; exact ⟨by simp, by simp, by trivial⟩
        | none => simp only [ht, hd, if_true]; exact ⟨by simp, by simp, by trivial⟩
      · simp only [Bool.not_eq_true] at ht
        simp only [ht, Bool.false_eq_true, if_false]
        exact ⟨by simp, by simp, by trivial⟩

/-- A caller sequence that always succeeds with the value 7. -/
def c2f : Conn → Except Error Nat × Conn :=
  fun c => (Except.ok 7, c)

/-- Witness for C2 in standard configuration with every primitive
succeeding: commit is issued, the transaction commits, and the caller
observes the success value 7. -/
theorem C2_witness :
    Event.commitIssued ∈ (with_transaction okB sStd "test" c2f).2 ∧
    (okB.commitErr = none →
      Event.committed ∈ (with_transaction okB sStd "test" c2f).2) ∧
    (with_transaction okB sStd "test" c2f).1 = Except.ok 7 := by
  have h := @C2_with_transaction_success_path Nat okB sStd "test" connMain c4conn
      [Event.attachIssued "db/test.db" "test", Event.fkEnabled]
      7 c2f rfl rfl rfl rfl
  exact ⟨h.1, h.2.1, h.2.2⟩

/-- Counterexample to C2 as literally stated: when `tx.commit()` fails, the
commit is issued but the caller observes the commit error instead of the
sequence's success value 7. -/
theorem C2_counterexample :
    (∀ c : Conn, (c2f c).1 = Except.ok 7) ∧
    Event.commitIssued ∈ (with_transaction commitFailB sStd "test" c2f).2 ∧
    (with_transaction commitFailB sStd "test" c2f).1 =
      Except.error (Error.transactionError "COMMIT failed: database is locked") ∧
    (with_transaction commitFailB sStd "test" c2f).1 ≠ Except.ok 7 := by
  refine ⟨fun c => rfl, by decide, rfl, ?_⟩
  have h2 : (with_transaction commitFailB sStd "test" c2f).1 =
      Except.error (Error.transactionError "COMMIT failed: database is locked") := rfl
  rw [h2]
  decide

/-- C6 (amended): in test configuration `with_connection_internal` issues a
DETACH at scope exit on every path (whatever the caller operation returned),
and the caller observes the operation's own result exactly when the detach
succeeds — a detach failure replaces the original result, so teardown is not
best-effort; in standard configuration no DETACH is issued and the caller
observes the operation's result. -/
theorem C6_with_connection_detach_behavior {α : Type} {b : Backend} {s : Sqlite}
    {db : String} {conn0 conn1 : Conn} {evs0 : List Event}
    (f : Conn → Except Error α × Conn)
    (hget : b.poolGet s.pool = Except.ok conn0)
    (hattach : attach_database b s.file_path conn0 db = (Except.ok conn1, evs0)) :
    (s.test_mode = true → Event.detachIssued db ∈ (with_connection b s db f).2) ∧
    (s.test_mode = false →
        Event.detachIssued db ∉ (with_connection b s db f).2 ∧
        (with_connection b s db f).1 = (f conn1).1) ∧
    (s.test_mode = true →
        (with_connection b s db f).1 =
          (match b.detachErr with
           | some d => Except.error d
           | none => (f conn1).1)) := by
  have hevs0 : ∀ ev ∈ evs0,
      ev = Event.attachIssued s.file_path db ∨ ev = Event.fkEnabled := by
    intro ev hev
    exact attach_events (by rw [hattach]; exact hev)
  have hnd : Event.detachIssued db ∉ evs0 := by
    intro hmem
    rcases hevs0 _ hmem with h | h <;> simp at h
  unfold with_connection
  rw [wci_run _ hget hattach]
  simp only [liftPlain]
  refine ⟨?_, ?_, ?_⟩
  · intro ht
    simp only [ht, if_true]
    cases hd : b.detachErr <;> simp
  · intro ht
    simp only [ht, Bool.false_eq_true, if_false]
    exact ⟨by simp [hnd], by trivial⟩
  · intro ht
    simp only [ht, if_true]
    cases hd : b.detachErr <;> simp

/-- A caller operation that always succeeds with the value 5. -/
def c6f : Conn → Except Error Nat × Conn :=
  fun c => (Except.ok 5, c)

/-- Witness for C6 in test configuration with a succeeding detach: the
DETACH is issued at scope exit and the caller still observes the
operation's result. -/
theorem C6_witness :
    Event.detachIssued "test" ∈ (with_connection okB sTest "test" c6f).2 ∧
    (with_connection okB sTest "test" c6f).1 = Except.ok 5 := by
  have h := @C6_with_connection_detach_behavior Nat okB sTest "test" connMain c4conn
      [Event.attachIssued "db/test.db" "test", Event.fkEnabled]
      c6f rfl rfl
  exact ⟨h.1 rfl, h.2.2 rfl⟩

/-- Counterexample to the best-effort part of C6: in test configuration a
failing DETACH replaces the caller operation's successful result with the
detach error. -/
theorem C6_counterexample :
    (∀ c : Conn, (c6f c).1 = Except.ok 5) ∧
    (with_connection detachFailB sTest "test" c6f).1 =
      Except.error (Error.queryError "DETACH failed: database is locked") ∧
    (with_connection detachFailB sTest "test" c6f).1 ≠ Except.ok 5 := by
  refine ⟨fun c => rfl, rfl, ?_⟩
  have h2 : (with_connection detachFailB sTest "test" c6f).1 =
      Except.error (Error.queryError "DETACH failed: database is locked") := rfl
  rw [h2]
  decide

/-- C3 (amended): a raw-query call through `query_on_raw_connection` whose
positional bind-value count exceeds the context's bind-value limit never
dispatches the query to the backend, and — once connection checkout and
attach have succeeded — fails with `LimitExceeded`, except that in test
configuration a failure of the scope-exit DETACH replaces the
`LimitExceeded` error with the detach error; in standard configuration the
call always fails with exactly `LimitExceeded`. -/
theorem C3_raw_query_limit_exceeded {ctx : Context} {b : Backend} {s : Sqlite}
    {db sql : String} {params : List ParameterizedValue} {limit : Nat}
    (hm : ctx.max_bind_values = some limit)
    (hlen : limit < params.length) :
    Event.queryDispatched sql ∉ (query_on_raw_connection ctx b s db sql params).2 ∧
    (∀ (conn0 conn1 : Conn) (evs0 : List Event),
        b.poolGet s.pool = Except.ok conn0 →
        attach_database b s.file_path conn0 db = (Except.ok conn1, evs0) →
        (query_on_raw_connection ctx b s db sql params).1 =
          (match s.test_mode, b.detachErr with
           | true, some d => Except.error d
           | true, none => Except.error (Error.limitExceeded params.length limit)
           | false, _ => Except.error (Error.limitExceeded params.length limit))) := by
  have hq := @query_raw_limit ctx b sql params limit hm hlen
  constructor
  · unfold query_on_raw_connection with_connection_internal
    cases hg : b.poolGet s.pool with
    | error e => simp
    | ok conn0 =>
        rcases ha : attach_database b s.file_path conn0 db with ⟨r, evs⟩
        have hnq : Event.queryDispatched sql ∉ evs := by
          intro hmem
          rcases attach_events (by rw [ha]; exact hmem) with h | h <;> simp at h
        simp only
        rw [ha]
        cases r with
        | error e => simpa using hnq
        | ok conn1 =>
            by_cases ht : s.test_mode = true
            · cases hd : b.detachErr with
              | some d => simp [ht, hd, hq, hnq]
              | none => simp [ht, hd, hq, hnq]
            · simp only [Bool.not_eq_true] at ht
              simp [ht, hq, hnq]
  · intro conn0 conn1 evs0 hget hattach
    unfold query_on_raw_connection
    rw [wci_run _ hget hattach]
    simp only [hq]
    by_cases ht : s.test_mode = true
    · cases hd : b.detachErr with
      | some d => simp [ht, hd]
      | none => simp [ht, hd]
    · simp only [Bool.not_eq_true] at ht
      simp [ht]

/-- A descriptor reporting a bind-value limit of 2. -/
def c3ci : ConnectionInfo :=
  { max_insert_rows := none, max_bind_values := 2, schema_name := "public" }

/-- The Capability Context built from `c3ci` with no trace identifier. -/
def c3ctx : Context := Context.new c3ci none

/-- Three positional bind values. -/
def c3params : List ParameterizedValue :=
  [ParameterizedValue.integer 1, ParameterizedValue.integer 2,
   ParameterizedValue.integer 3]

/-- Witness for C3 in standard configuration: three bind values against a
limit of two; the query is not dispatched and the call fails with exactly
`LimitExceeded 3 2`. -/
theorem C3_witness :
    Event.queryDispatched "SELECT ?" ∉
      (query_on_raw_connection c3ctx okB sStd "test" "SELECT ?" c3params).2 ∧
    (∀ (conn0 conn1 : Conn) (evs0 : List Event),
        okB.poolGet sStd.pool = Except.ok conn0 →
        attach_database okB sStd.file_path conn0 "test" = (Except.ok conn1, evs0) →
        (query_on_raw_connection c3ctx okB sStd "test" "SELECT ?" c3params).1 =
          Except.error (Error.limitExceeded 3 2)) :=
  C3_raw_query_limit_exceeded rfl (by decide)

/-- Counterexample to C3 as literally stated: in test configuration with a
failing scope-exit DETACH, a raw-query call with three bind values against a
limit of two is still never dispatched, but it fails with the detach error
rather than with `LimitExceeded` — the same masking that falsifies the
literal C1, C2 and C6. -/
theorem C3_counterexample :
    c3ctx.max_bind_values = some 2 ∧
    2 < c3params.length ∧
    Event.queryDispatched "SELECT ?" ∉
      (query_on_raw_connection c3ctx detachFailB sTest "test" "SELECT ?" c3params).2 ∧
    (query_on_raw_connection c3ctx detachFailB sTest "test" "SELECT ?" c3params).1 =
      Except.error (Error.queryError "DETACH failed: database is locked") ∧
    (query_on_raw_connection c3ctx detachFailB sTest "test" "SELECT ?" c3params).1 ≠
      Except.error (Error.limitExceeded 3 2) := by
  refine ⟨rfl, by decide, by decide, rfl, ?_⟩
  have h2 : (query_on_raw_connection c3ctx detachFailB sTest "test" "SELECT ?" c3params).1 =
      Except.error (Error.queryError "DETACH failed: database is locked") := rfl
  rw [h2]
  decide

end PrismaConnector
